import Mathlib

/-!
# Verification of the surfman surface/context lifecycle core

Shallow embedding of the two backend source files:

* `src/surfman/src/platform/android/surface.rs` — surface creation, presentation,
  surface-texture wrapping and destruction for the Android (EGL) backend;
* `src/surfman/src/platform/macos/cgl/context.rs` — context descriptor creation,
  context creation/destruction and the surface binding state machine for the
  macOS (CGL) backend.

Native GL/EGL/CGL calls are side effects on an external world.  They are modelled
by an explicit event trace (which native call was issued, with which handle) plus,
for the CGL backend, a thread-current-context cell and an error oracle telling
each `CGLSetCurrentContext` call whether the native layer accepts it.  Rust
functions taking `&mut` receivers are modelled as functions returning the updated
value alongside the result.
-/

/-- Modelled from the spec: `ContextID` lives in `src/context.rs`, which is not
under src/; per the spec it is a monotonically allocated integer. -/
abbrev ContextID := Nat

/-- Modelled from the spec: the crate-level `Error` enum is not under src/; these
are the variants the two source files construct, with native error codes carried
as numbers. -/
inductive Error where
  | PixelFormatSelectionFailed (code : Nat)
  | NoPixelFormatFound
  | ContextCreationFailed (code : Nat)
  | MakeCurrentFailed (code : Nat)
  | ExternalRenderTarget
  | SurfaceAlreadyBound
  | IncompatibleSurface
  | WidgetAttached
  | NoWidgetAttached
  deriving DecidableEq, Repr

/-- The context's render-target binding slot (`src/surface.rs`, re-exported to
both backends; the three states appear verbatim in the CGL context source). -/
inductive Framebuffer (S : Type) where
  | None
  | Surface (surface : S)
  | External
  deriving DecidableEq, Repr

/-- `euclid::default::Size2D<i32>`. -/
structure Size2D where
  width : Int
  height : Int
  deriving DecidableEq, Repr

/-- Modelled from the spec: `ContextAttributeFlags` (crate level, not under src/)
holds the alpha/depth/stencil presence flags named by the spec. -/
structure ContextAttributeFlags where
  alpha : Bool
  depth : Bool
  stencil : Bool
  deriving DecidableEq, Repr

/-- Modelled from the spec: `GLVersion` (crate level, not under src/) is a
major/minor pair of small integers. -/
structure GLVersion where
  major : Nat
  minor : Nat
  deriving DecidableEq, Repr

/-- Modelled from the spec: `ContextAttributes` (crate level, not under src/)
bundles the flags and the requested GL version. -/
structure ContextAttributes where
  flags : ContextAttributeFlags
  version : GLVersion
  deriving DecidableEq, Repr

namespace Android

/-- One native GL/EGL call issued by the Android backend, recorded with the
handle it operates on. -/
inductive GLEvent where
  | BindFramebuffer (fbo : Nat)
  | DeleteFramebuffer (fbo : Nat)
  | DeleteRenderbuffer (rbo : Nat)
  | DestroyImageKHR (image : Nat)
  | DeleteTexture (tex : Nat)
  | DestroyEGLSurface (egl_surface : Nat)
  | SwapBuffers (egl_surface : Nat)
  deriving DecidableEq, Repr

/-- Modelled from the spec: `Renderbuffers` (`src/renderbuffers.rs`, not under
src/) is the auxiliary depth/stencil renderbuffer set attached to a Generic
surface; destroying it deletes each renderbuffer object and zeroes the handles. -/
structure Renderbuffers where
  handles : List Nat
  deriving DecidableEq, Repr

/-- Modelled from the spec: `Renderbuffers::destroy` deletes every renderbuffer
object and zeroes the stored handles. -/
def Renderbuffers.destroy (r : Renderbuffers) : Renderbuffers × List GLEvent :=
  (⟨r.handles.map fun _ => 0⟩, r.handles.map GLEvent.DeleteRenderbuffer)

/-- `egl::NO_IMAGE_KHR` (null handle). -/
def NO_IMAGE_KHR : Nat := 0

/-- `egl::NO_SURFACE` (null handle). -/
def NO_SURFACE : Nat := 0

/-- The backend-specific payload of a surface: `SurfaceObjects` from the Android
surface source. -/
inductive SurfaceObjects where
  | EGLImage (egl_image : Nat) (framebuffer_object : Nat) (texture_object : Nat)
      (renderbuffers : Renderbuffers)
  | Window (egl_surface : Nat)
  deriving DecidableEq, Repr

/-- `Surface` from the Android surface source. -/
structure Surface where
  context_id : ContextID
  size : Size2D
  objects : SurfaceObjects
  destroyed : Bool
  deriving DecidableEq, Repr

/-- `SurfaceTexture` from the Android surface source (the `PhantomData` marker
carries no state). -/
structure SurfaceTexture where
  surface : Surface
  texture_object : Nat
  deriving DecidableEq, Repr

/-- Modelled from the spec: the Android `Context` (`src/platform/android/context.rs`,
not under src/) carries a process-unique `ContextID` and a native EGL context handle. -/
structure Context where
  id : ContextID
  egl_context : Nat
  deriving DecidableEq, Repr

/-- `Device::create_generic_surface`.  The native allocations (`GenTextures`,
`CreateImageKHR`, `GenFramebuffers`, `Renderbuffers::new`) return fresh handles
chosen by the native layer; they are passed in as oracle arguments. -/
def create_generic_surface (context : Context) (size : Size2D)
    (texture_object egl_image framebuffer_object : Nat)
    (renderbuffers : Renderbuffers) : Except Error Surface :=
  Except.ok
    { size := size
      context_id := context.id
      objects := SurfaceObjects.EGLImage egl_image framebuffer_object texture_object
          renderbuffers
      destroyed := false }

/-- `Device::create_window_surface`.  `ANativeWindow_getWidth`/`getHeight` and
`egl::CreateWindowSurface` results are oracle arguments. -/
def create_window_surface (context : Context) (width height : Int)
    (egl_surface : Nat) : Except Error Surface :=
  Except.ok
    { context_id := context.id
      size := ⟨width, height⟩
      objects := SurfaceObjects.Window egl_surface
      destroyed := false }

/-- `Device::create_surface_texture`.  `bind_to_gl_texture` generates a fresh GL
texture bound to the EGL image; the generated name is the oracle argument
`new_texture`. -/
def create_surface_texture (surface : Surface) (new_texture : Nat) :
    Except Error SurfaceTexture :=
  match surface.objects with
  | SurfaceObjects.Window _ => Except.error Error.WidgetAttached
  | SurfaceObjects.EGLImage _ _ _ _ =>
      Except.ok { surface := surface, texture_object := new_texture }

/-- `Device::present_surface_without_context`: swap the native buffer chain of a
Window surface; typed error for a Generic surface. -/
def present_surface_without_context (surface : Surface) :
    (Except Error Unit) × Surface × List GLEvent :=
  match surface.objects with
  | SurfaceObjects.Window egl_surface =>
      (Except.ok (), surface, [GLEvent.SwapBuffers egl_surface])
  | SurfaceObjects.EGLImage _ _ _ _ =>
      (Except.error Error.NoWidgetAttached, surface, [])

/-- `Device::present_surface` forwards to `present_surface_without_context`. -/
def present_surface (surface : Surface) :
    (Except Error Unit) × Surface × List GLEvent :=
  present_surface_without_context surface

/-- `Device::destroy_surface`.  Returns the result, the final state of the moved-in
surface (as it is when it is dropped at function exit), and the trace of native
release calls issued. -/
def destroy_surface (context : Context) (surface : Surface) :
    (Except Error Unit) × Surface × List GLEvent :=
  if context.id ≠ surface.context_id then
    -- Leak the surface, and return an error.
    (Except.error Error.IncompatibleSurface, { surface with destroyed := true }, [])
  else
    match surface.objects with
    | SurfaceObjects.EGLImage egl_image framebuffer_object texture_object
        renderbuffers =>
        let (renderbuffers', rbEvents) := renderbuffers.destroy
        (Except.ok (),
         { surface with
             objects := SurfaceObjects.EGLImage NO_IMAGE_KHR 0 0 renderbuffers'
             destroyed := true },
         GLEvent.BindFramebuffer 0 ::
           GLEvent.DeleteFramebuffer framebuffer_object ::
             (rbEvents ++
               [GLEvent.DestroyImageKHR egl_image,
                GLEvent.DeleteTexture texture_object]))
    | SurfaceObjects.Window egl_surface =>
        (Except.ok (),
         { surface with
             objects := SurfaceObjects.Window NO_SURFACE
             destroyed := true },
         [GLEvent.DestroyEGLSurface egl_surface])

/-- `Device::destroy_surface_texture`: delete the derived texture and hand the
wrapped surface back. -/
def destroy_surface_texture (surface_texture : SurfaceTexture) :
    (Except Error Surface) × List GLEvent :=
  (Except.ok surface_texture.surface,
   [GLEvent.DeleteTexture surface_texture.texture_object])

/-- `Drop for Surface` panics when the surface was not explicitly destroyed. -/
def Surface.dropPanics (surface : Surface) : Bool :=
  !surface.destroyed

end Android

namespace Cgl

/-- `kCGLNoError`. -/
def kCGLNoError : Nat := 0

/-- `kCGLOGLPVersion_Legacy`: renderer compatible with GL 1.0. -/
def kCGLOGLPVersion_Legacy : Nat := 0x1000

/-- `kCGLOGLPVersion_3_2_Core`: renderer capable of GL 3.2 or later. -/
def kCGLOGLPVersion_3_2_Core : Nat := 0x3200

/-- `kCGLOGLPVersion_GL4_Core`: renderer capable of GL 4.1 or later. -/
def kCGLOGLPVersion_GL4_Core : Nat := 0x4100

/-- Modelled from the spec: the macOS CGL `Surface`
(`src/platform/macos/cgl/surface.rs`, not under src/) has the common surface
fields — the creating context's ID, a size, a destroyed flag — plus a native
backing handle.  The CGL context source consults only `context_id`. -/
structure Surface where
  context_id : ContextID
  size : Size2D
  handle : Nat
  destroyed : Bool
  deriving DecidableEq, Repr

/-- `Context` from the CGL context source: native handle, ID, and the framebuffer
binding slot. -/
structure Context where
  cgl_context : Nat
  id : ContextID
  framebuffer : Framebuffer Surface
  deriving DecidableEq, Repr

/-- `Drop for Context` panics when the native handle was not zeroed by
`destroy_context`. -/
def Context.dropPanics (context : Context) : Bool :=
  context.cgl_context != 0

/-- The CGL pixel format object behind a `ContextDescriptor`, modelled as storing
the attribute values handed to `CGLChoosePixelFormat`; `CGLDescribePixelFormat`
reads them back. -/
structure ContextDescriptor where
  alpha_size : Nat
  depth_size : Nat
  stencil_size : Nat
  gl_profile : Nat
  allow_offline_renderers : Bool
  deriving DecidableEq, Repr

/-- `Device` for the CGL backend; the only field the context source consults is
whether the adapter is the low-power one. -/
structure Device where
  is_low_power : Bool
  deriving DecidableEq, Repr

/-- One native CGL/GL call issued by the CGL context source. -/
inductive CGLEvent where
  | SetCurrentContext (ctx : Nat)
  | Flush
  | DestroyContext (ctx : Nat)
  | ReleaseSurface (handle : Nat)
  deriving DecidableEq, Repr

/-- The native world seen by one thread: which CGL context is current (`0` for
null), the trace of native calls issued so far, and an oracle giving the error
code each `CGLSetCurrentContext` call returns for a given handle. -/
structure CGLWorld where
  setCurrentErr : Nat → Nat
  current : Nat
  events : List CGLEvent

/-- `CGLSetCurrentContext`: record the call; on native success the handle becomes
the thread's current context. -/
def cglSetCurrentContext (w : CGLWorld) (handle : Nat) : Nat × CGLWorld :=
  let err := w.setCurrentErr handle
  let w' := { w with events := w.events ++ [CGLEvent.SetCurrentContext handle] }
  if err = kCGLNoError then (err, { w' with current := handle }) else (err, w')

/-- `Device::make_context_current`. -/
def make_context_current (w : CGLWorld) (context : Context) :
    (Except Error Unit) × CGLWorld :=
  let (err, w') := cglSetCurrentContext w context.cgl_context
  if err ≠ kCGLNoError then (Except.error (Error.MakeCurrentFailed err), w')
  else (Except.ok (), w')

/-- `Device::make_no_context_current`. -/
def make_no_context_current (w : CGLWorld) : (Except Error Unit) × CGLWorld :=
  let (err, w') := cglSetCurrentContext w 0
  if err ≠ kCGLNoError then (Except.error (Error.MakeCurrentFailed err), w')
  else (Except.ok (), w')

/-- `Device::temporarily_make_context_current`: create a `CurrentContextGuard`
capturing the previously current context, then make `context` current.  On
failure the guard is dropped inside this function, restoring the captured
context; on success the captured handle is returned for the caller's guard to
restore at scope exit. -/
def temporarily_make_context_current (w : CGLWorld) (context : Context) :
    (Except Error Nat) × CGLWorld :=
  let old := w.current
  let (r, w1) := make_context_current w context
  match r with
  | Except.error e =>
      let (_, w2) := cglSetCurrentContext w1 old
      (Except.error e, w2)
  | Except.ok _ => (Except.ok old, w1)

/-- `Device::bind_surface_to_context`: the binding state machine.  Returns the
result and the final state of the `&mut Context`. -/
def bind_surface_to_context (context : Context) (new_surface : Surface) :
    (Except Error Unit) × Context :=
  match context.framebuffer with
  | Framebuffer.External => (Except.error Error.ExternalRenderTarget, context)
  | Framebuffer.Surface _ => (Except.error Error.SurfaceAlreadyBound, context)
  | Framebuffer.None =>
      if new_surface.context_id ≠ context.id then
        (Except.error Error.IncompatibleSurface, context)
      else
        (Except.ok (),
         { context with framebuffer := Framebuffer.Surface new_surface })

/-- `Device::unbind_surface_from_context`.  Returns the result, the final context
state, and the final world.  In the bound case the context is temporarily made
current, `glFlush` is issued, and the guard restores the previously current
context before returning. -/
def unbind_surface_from_context (w : CGLWorld) (context : Context) :
    (Except Error (Option Surface)) × Context × CGLWorld :=
  match context.framebuffer with
  | Framebuffer.External => (Except.error Error.ExternalRenderTarget, context, w)
  | Framebuffer.None => (Except.ok none, context, w)
  | Framebuffer.Surface surface =>
      let context1 := { context with framebuffer := Framebuffer.None }
      let (g, w1) := temporarily_make_context_current w context1
      match g with
      | Except.error e => (Except.error e, context1, w1)
      | Except.ok old =>
          let w2 := { w1 with events := w1.events ++ [CGLEvent.Flush] }
          let (_, w3) := cglSetCurrentContext w2 old
          (Except.ok (some surface), context1, w3)

/-- Modelled from the spec: `Device::destroy_surface` for the CGL backend
(`src/platform/macos/cgl/surface.rs`, not under src/).  Per the spec: on an ID
mismatch the surface is marked destroyed and leaked with `IncompatibleSurface`;
otherwise the backing native resources are released, the handle zeroed, and the
surface marked destroyed. -/
def destroy_surface (w : CGLWorld) (context : Context) (surface : Surface) :
    (Except Error Unit) × Surface × CGLWorld :=
  if context.id ≠ surface.context_id then
    (Except.error Error.IncompatibleSurface, { surface with destroyed := true }, w)
  else
    (Except.ok (), { surface with handle := 0, destroyed := true },
     { w with events := w.events ++ [CGLEvent.ReleaseSurface surface.handle] })

/-- `Device::destroy_context`.  The `mem::replace` empties the binding slot
unconditionally; a bound surface is destroyed via `destroy_surface` (with `?`
propagation), then the thread's current context is cleared, the native context
destroyed, and the handle zeroed. -/
def destroy_context (w : CGLWorld) (context : Context) :
    (Except Error Unit) × Context × CGLWorld :=
  if context.cgl_context = 0 then (Except.ok (), context, w)
  else
    let context1 := { context with framebuffer := Framebuffer.None }
    let (r, w1) :=
      match context.framebuffer with
      | Framebuffer.Surface surface =>
          let (r, _, w') := destroy_surface w context1 surface
          (r, w')
      | _ => (Except.ok (), w)
    match r with
    | Except.error e => (Except.error e, context1, w1)
    | Except.ok _ =>
        let (_, w2) := cglSetCurrentContext w1 0
        let w3 :=
          { w2 with events := w2.events ++ [CGLEvent.DestroyContext context.cgl_context] }
        (Except.ok (), { context1 with cgl_context := 0 }, w3)

/-- The state guarded by `CREATE_CONTEXT_MUTEX`: the next context ID to hand out. -/
structure CreateContextState where
  next_context_id : ContextID
  deriving DecidableEq, Repr

/-- `Device::create_context`.  `create_result` is the oracle outcome of the native
`CGLCreateContext` call: an error code, or the non-null handle it produced.  On
native failure the function returns before touching the counter; on success the
new context takes the counter's value and the counter is incremented before the
mutex is released. -/
def create_context (st : CreateContextState) (create_result : Except Nat Nat) :
    (Except Error Context) × CreateContextState :=
  match create_result with
  | Except.error err => (Except.error (Error.ContextCreationFailed err), st)
  | Except.ok cgl_context =>
      (Except.ok
         { cgl_context := cgl_context
           id := st.next_context_id
           framebuffer := Framebuffer.None },
       { next_context_id := st.next_context_id + 1 })

/-- A sequence of `create_context` calls under the creation mutex, collecting the
successfully created contexts in order. -/
def run_creations (st : CreateContextState) :
    List (Except Nat Nat) → List Context × CreateContextState
  | [] => ([], st)
  | r :: rs =>
      let (c, st1) := create_context st r
      let (cs, st2) := run_creations st1 rs
      match c with
      | Except.ok ctx => (ctx :: cs, st2)
      | Except.error _ => (cs, st2)

/-- `Device::create_context_descriptor`.  `choose_err` and `pixel_format_count`
are the oracle outcomes of the native `CGLChoosePixelFormat` call; the returned
descriptor stores the attribute values the source put into
`cgl_pixel_format_attributes`. -/
def create_context_descriptor (device : Device) (attributes : ContextAttributes)
    (choose_err : Nat) (pixel_format_count : Nat) : Except Error ContextDescriptor :=
  let profile :=
    if attributes.version.major ≥ 4 then kCGLOGLPVersion_GL4_Core
    else if attributes.version.major = 3 then kCGLOGLPVersion_3_2_Core
    else kCGLOGLPVersion_Legacy
  let alpha_size := if attributes.flags.alpha then 8 else 0
  let depth_size := if attributes.flags.depth then 24 else 0
  let stencil_size := if attributes.flags.stencil then 8 else 0
  if choose_err ≠ kCGLNoError then
    Except.error (Error.PixelFormatSelectionFailed choose_err)
  else if pixel_format_count = 0 then
    Except.error Error.NoPixelFormatFound
  else
    Except.ok
      { alpha_size := alpha_size
        depth_size := depth_size
        stencil_size := stencil_size
        gl_profile := profile
        allow_offline_renderers := device.is_low_power }

/-- `Device::context_descriptor_attributes`: read the pixel-format attributes back
and reconstruct the abstract attribute set, decoding the encoded profile field
into major/minor version numbers. -/
def context_descriptor_attributes (context_descriptor : ContextDescriptor) :
    ContextAttributes :=
  let alpha_size := context_descriptor.alpha_size
  let depth_size := context_descriptor.depth_size
  let stencil_size := context_descriptor.stencil_size
  let gl_profile := context_descriptor.gl_profile
  { flags :=
      { alpha := alpha_size != 0
        depth := depth_size != 0
        stencil := stencil_size != 0 }
    version :=
      { major := (gl_profile >>> 12) &&& 0xf
        minor := (gl_profile >>> 8) &&& 0xf } }

/-- `Device::context_id`. -/
def context_id (context : Context) : ContextID :=
  context.id

end Cgl

/-! ## Sample concrete values used to instantiate the theorems -/

def sampleRenderbuffers : Android.Renderbuffers := ⟨[7, 8]⟩

def sampleGeneric : Android.Surface :=
  { context_id := 1
    size := ⟨256, 256⟩
    objects := Android.SurfaceObjects.EGLImage 11 12 13 sampleRenderbuffers
    destroyed := false }

def sampleWindow : Android.Surface :=
  { context_id := 1
    size := ⟨800, 600⟩
    objects := Android.SurfaceObjects.Window 21
    destroyed := false }

def sampleAndroidCtx : Android.Context := ⟨1, 5⟩

def sampleAndroidCtx2 : Android.Context := ⟨2, 6⟩

def sampleCglSurface : Cgl.Surface := ⟨1, ⟨256, 256⟩, 31, false⟩

def sampleCglSurfaceBad : Cgl.Surface := ⟨9, ⟨256, 256⟩, 32, false⟩

def cglCtxNone : Cgl.Context := ⟨41, 1, Framebuffer.None⟩

def cglCtxExt : Cgl.Context := ⟨42, 1, Framebuffer.External⟩

def cglCtxBound : Cgl.Context := ⟨43, 1, Framebuffer.Surface sampleCglSurface⟩

def sampleWorld : Cgl.CGLWorld := ⟨fun _ => 0, 0, []⟩

/-! ## Claims -/

/-- C1: `bind_surface_to_context` succeeds exactly when the context's framebuffer
state is `Framebuffer.None` and the surface's `context_id` equals the context's
id, in which case the state moves to `Framebuffer.Surface` holding that surface;
it returns `ExternalRenderTarget` from `External`, `SurfaceAlreadyBound` when a
surface is already bound, `IncompatibleSurface` on an ID mismatch, and on every
error the context's binding state is unchanged. -/
theorem C1_bind_surface_state_machine (context : Cgl.Context)
    (new_surface : Cgl.Surface) :
    (((Cgl.bind_surface_to_context context new_surface).1 = Except.ok ()) ↔
      (context.framebuffer = Framebuffer.None ∧
        new_surface.context_id = context.id)) ∧
    ((Cgl.bind_surface_to_context context new_surface).1 = Except.ok () →
      (Cgl.bind_surface_to_context context new_surface).2.framebuffer =
        Framebuffer.Surface new_surface) ∧
    (context.framebuffer = Framebuffer.External →
      (Cgl.bind_surface_to_context context new_surface).1 =
        Except.error Error.ExternalRenderTarget) ∧
    (∀ s, context.framebuffer = Framebuffer.Surface s →
      (Cgl.bind_surface_to_context context new_surface).1 =
        Except.error Error.SurfaceAlreadyBound) ∧
    (context.framebuffer = Framebuffer.None → new_surface.context_id ≠ context.id →
      (Cgl.bind_surface_to_context context new_surface).1 =
        Except.error Error.IncompatibleSurface) ∧
    (∀ e, (Cgl.bind_surface_to_context context new_surface).1 = Except.error e →
      (Cgl.bind_surface_to_context context new_surface).2 = context) := by
  cases hf : context.framebuffer <;>
    by_cases h : new_surface.context_id = context.id <;>
      simp [Cgl.bind_surface_to_context, hf, h]

/-- C1 witness: binding a matching surface to an unbound context succeeds;
binding to an externally-bound context fails with `ExternalRenderTarget`. -/
theorem C1_bind_surface_state_machine_witness :
    (Cgl.bind_surface_to_context cglCtxNone sampleCglSurface).1 = Except.ok () ∧
    (Cgl.bind_surface_to_context cglCtxExt sampleCglSurface).1 =
      Except.error Error.ExternalRenderTarget := by
  constructor
  · exact (C1_bind_surface_state_machine cglCtxNone sampleCglSurface).1.mpr ⟨rfl, rfl⟩
  · exact (C1_bind_surface_state_machine cglCtxExt sampleCglSurface).2.2.1 rfl

/-- C10: in `bind_surface_to_context` the binding-state check precedes the
compatibility check: from `External` or an already-bound state the corresponding
error is returned for every supplied surface, mismatched or not, and
`IncompatibleSurface` can only arise from the unbound state. -/
theorem C10_state_check_precedes_compatibility (context : Cgl.Context)
    (new_surface : Cgl.Surface) :
    (context.framebuffer = Framebuffer.External →
      (Cgl.bind_surface_to_context context new_surface).1 =
        Except.error Error.ExternalRenderTarget) ∧
    (∀ s, context.framebuffer = Framebuffer.Surface s →
      (Cgl.bind_surface_to_context context new_surface).1 =
        Except.error Error.SurfaceAlreadyBound) ∧
    ((Cgl.bind_surface_to_context context new_surface).1 =
        Except.error Error.IncompatibleSurface →
      context.framebuffer = Framebuffer.None) := by
  cases hf : context.framebuffer <;>
    by_cases h : new_surface.context_id = context.id <;>
      simp [Cgl.bind_surface_to_context, hf, h]

/-- C10 witness: an externally-bound context rejects even an ID-mismatched
surface with `ExternalRenderTarget`, not `IncompatibleSurface`. -/
theorem C10_state_check_precedes_compatibility_witness :
    (Cgl.bind_surface_to_context cglCtxExt sampleCglSurfaceBad).1 =
      Except.error Error.ExternalRenderTarget :=
  (C10_state_check_precedes_compatibility cglCtxExt sampleCglSurfaceBad).1 rfl

/-- C2: destroying a surface through a context whose ID differs from the
surface's `context_id` marks the surface destroyed, returns
`IncompatibleSurface`, issues no native release call, and leaves the surface's
native objects (hence every handle value) unchanged. -/
theorem C2_destroy_surface_mismatch_leaks (context : Android.Context)
    (surface : Android.Surface) (h : surface.context_id ≠ context.id) :
    (Android.destroy_surface context surface).1 =
      Except.error Error.IncompatibleSurface ∧
    (Android.destroy_surface context surface).2.1 =
      { surface with destroyed := true } ∧
    (Android.destroy_surface context surface).2.1.objects = surface.objects ∧
    (Android.destroy_surface context surface).2.2 = [] := by
  have h' : context.id ≠ surface.context_id := fun e => h e.symm
  simp [Android.destroy_surface, h']

/-- C2 witness: a context with ID 2 destroying a surface created under ID 1
leaks: typed error, destroyed flag set, objects untouched, no native calls. -/
theorem C2_destroy_surface_mismatch_leaks_witness :
    (Android.destroy_surface sampleAndroidCtx2 sampleGeneric).1 =
      Except.error Error.IncompatibleSurface ∧
    (Android.destroy_surface sampleAndroidCtx2 sampleGeneric).2.1.objects =
      sampleGeneric.objects ∧
    (Android.destroy_surface sampleAndroidCtx2 sampleGeneric).2.2 = [] := by
  have h := C2_destroy_surface_mismatch_leaks sampleAndroidCtx2 sampleGeneric
    (by decide)
  exact ⟨h.1, h.2.2.1, h.2.2.2⟩

/-- C5: destroying a surface through its own context succeeds, marks it
destroyed, zeroes every stored handle to the null sentinel, and issues the
native release calls for the active variant (framebuffer, renderbuffers, EGL
image and texture for a Generic surface; the EGL window surface for a Window
surface). -/
theorem C5_destroy_surface_releases (context : Android.Context)
    (surface : Android.Surface) (h : context.id = surface.context_id) :
    (Android.destroy_surface context surface).1 = Except.ok () ∧
    (Android.destroy_surface context surface).2.1.destroyed = true ∧
    (∀ i f t r, surface.objects = Android.SurfaceObjects.EGLImage i f t r →
      (Android.destroy_surface context surface).2.1.objects =
        Android.SurfaceObjects.EGLImage Android.NO_IMAGE_KHR 0 0 r.destroy.1 ∧
      (∀ x ∈ r.destroy.1.handles, x = 0) ∧
      (Android.destroy_surface context surface).2.2 =
        Android.GLEvent.BindFramebuffer 0 ::
          Android.GLEvent.DeleteFramebuffer f ::
            (r.destroy.2 ++
              [Android.GLEvent.DestroyImageKHR i,
               Android.GLEvent.DeleteTexture t])) ∧
    (∀ es, surface.objects = Android.SurfaceObjects.Window es →
      (Android.destroy_surface context surface).2.1.objects =
        Android.SurfaceObjects.Window Android.NO_SURFACE ∧
      (Android.destroy_surface context surface).2.2 =
        [Android.GLEvent.DestroyEGLSurface es]) := by
  cases ho : surface.objects with
  | EGLImage i0 f0 t0 r0 =>
      simp [Android.destroy_surface, h, ho, Android.Renderbuffers.destroy]
      intro i f t r h1 h2 h3 h4
      subst h1; subst h2; subst h3; subst h4
      simp
  | Window es0 =>
      simp [Android.destroy_surface, h, ho]

/-- C5 witness: destroying the sample Generic surface through its own context
succeeds and issues exactly the expected release calls. -/
theorem C5_destroy_surface_releases_witness :
    (Android.destroy_surface sampleAndroidCtx sampleGeneric).1 = Except.ok () ∧
    (Android.destroy_surface sampleAndroidCtx sampleGeneric).2.1.destroyed = true := by
  have h := C5_destroy_surface_releases sampleAndroidCtx sampleGeneric (by decide)
  exact ⟨h.1, h.2.1⟩

/-- C7: `create_surface_texture` fails with `WidgetAttached` on every Window
surface while `present_surface` succeeds on it, and `present_surface` fails with
`NoWidgetAttached` on every Generic surface while `create_surface_texture`
succeeds on it: each operation succeeds only on the other variant. -/
theorem C7_variant_dispatch (surface : Android.Surface) (new_texture : Nat) :
    (∀ es, surface.objects = Android.SurfaceObjects.Window es →
      Android.create_surface_texture surface new_texture =
        Except.error Error.WidgetAttached ∧
      (Android.present_surface surface).1 = Except.ok ()) ∧
    (∀ i f t r, surface.objects = Android.SurfaceObjects.EGLImage i f t r →
      Android.create_surface_texture surface new_texture =
        Except.ok ⟨surface, new_texture⟩ ∧
      (Android.present_surface surface).1 = Except.error Error.NoWidgetAttached) := by
  cases ho : surface.objects <;>
    simp [Android.create_surface_texture, Android.present_surface,
      Android.present_surface_without_context, ho]

/-- C7 witness: the sample Window surface is rejected by
`create_surface_texture` and accepted by `present_surface`; the sample Generic
surface is the other way round. -/
theorem C7_variant_dispatch_witness :
    Android.create_surface_texture sampleWindow 99 =
      Except.error Error.WidgetAttached ∧
    (Android.present_surface sampleWindow).1 = Except.ok () ∧
    (Android.present_surface sampleGeneric).1 =
      Except.error Error.NoWidgetAttached := by
  have hw := (C7_variant_dispatch sampleWindow 99).1 21 rfl
  have hg := (C7_variant_dispatch sampleGeneric 99).2 11 12 13
    sampleRenderbuffers rfl
  exact ⟨hw.1, hw.2, hg.2⟩

/-- C8: both surface constructors stamp the creating context's ID into
`context_id` and start with `destroyed = false`, and no surface-consuming
operation (`destroy_surface`, `present_surface`, `create_surface_texture`
followed by `destroy_surface_texture`) ever changes `context_id`. -/
theorem C8_context_id_invariant (context : Android.Context) (size : Size2D)
    (texture_object egl_image framebuffer_object : Nat)
    (renderbuffers : Android.Renderbuffers) (width height : Int)
    (egl_surface : Nat) (ctx2 : Android.Context) (surface : Android.Surface)
    (new_texture : Nat) (surface_texture : Android.SurfaceTexture) :
    (∀ s, Android.create_generic_surface context size texture_object egl_image
        framebuffer_object renderbuffers = Except.ok s →
      s.context_id = context.id ∧ s.destroyed = false) ∧
    (∀ s, Android.create_window_surface context width height egl_surface =
        Except.ok s →
      s.context_id = context.id ∧ s.destroyed = false) ∧
    (Android.destroy_surface ctx2 surface).2.1.context_id = surface.context_id ∧
    (Android.present_surface surface).2.1.context_id = surface.context_id ∧
    (∀ t, Android.create_surface_texture surface new_texture = Except.ok t →
      t.surface.context_id = surface.context_id) ∧
    (Android.destroy_surface_texture surface_texture).1 =
      Except.ok surface_texture.surface := by
  refine ⟨?_, ?_, ?_, ?_, ?_, ?_⟩
  · intro s hs
    simp [Android.create_generic_surface] at hs
    simp [← hs]
  · intro s hs
    simp [Android.create_window_surface] at hs
    simp [← hs]
  · by_cases h : ctx2.id ≠ surface.context_id
    · simp [Android.destroy_surface, h]
    · cases ho : surface.objects <;> simp [Android.destroy_surface, h, ho]
  · cases ho : surface.objects <;>
      simp [Android.present_surface, Android.present_surface_without_context, ho]
  · intro st ht
    cases ho : surface.objects with
    | EGLImage i f t r =>
        simp [Android.create_surface_texture, ho] at ht
        simp [← ht]
    | Window es =>
        simp [Android.create_surface_texture, ho] at ht
  · simp [Android.destroy_surface_texture]

/-- C8 witness: a Generic surface created under the sample context carries its
ID, starts non-destroyed, and a mismatched destroy leaves `context_id` intact. -/
theorem C8_context_id_invariant_witness :
    sampleGeneric.context_id = sampleAndroidCtx.id ∧
    sampleGeneric.destroyed = false ∧
    (Android.destroy_surface sampleAndroidCtx2 sampleGeneric).2.1.context_id =
      sampleGeneric.context_id := by
  have h := C8_context_id_invariant sampleAndroidCtx ⟨256, 256⟩ 13 11 12
    sampleRenderbuffers 800 600 21 sampleAndroidCtx2 sampleGeneric 99
    ⟨sampleGeneric, 99⟩
  have hc := h.1 sampleGeneric rfl
  exact ⟨hc.1, hc.2, h.2.2.1⟩

/-- Helper: `CGLSetCurrentContext` always records exactly one event. -/
theorem cglSetCurrentContext_events (w : Cgl.CGLWorld) (handle : Nat) :
    (Cgl.cglSetCurrentContext w handle).2.events =
      w.events ++ [Cgl.CGLEvent.SetCurrentContext handle] := by
  by_cases h : w.setCurrentErr handle = Cgl.kCGLNoError <;>
    simp [Cgl.cglSetCurrentContext, h]

/-- Helper: the current context after `CGLSetCurrentContext`. -/
theorem cglSetCurrentContext_current (w : Cgl.CGLWorld) (handle : Nat) :
    (Cgl.cglSetCurrentContext w handle).2.current =
      if w.setCurrentErr handle = Cgl.kCGLNoError then handle else w.current := by
  by_cases h : w.setCurrentErr handle = Cgl.kCGLNoError <;>
    simp [Cgl.cglSetCurrentContext, h]

/-- C3: `unbind_surface_from_context` returns `Ok(None)` and changes nothing when
the context is unbound; from the bound state (native make-current accepted) it
transitions the context to unbound, makes the context current, issues a GL
flush, restores the previously current context, and returns `Ok(Some surface)`;
from `External` it fails with `ExternalRenderTarget` and changes nothing. -/
theorem C3_unbind_surface_from_context (w : Cgl.CGLWorld) (context : Cgl.Context) :
    (context.framebuffer = Framebuffer.None →
      Cgl.unbind_surface_from_context w context = (Except.ok none, context, w)) ∧
    (context.framebuffer = Framebuffer.External →
      Cgl.unbind_surface_from_context w context =
        (Except.error Error.ExternalRenderTarget, context, w)) ∧
    (∀ s, context.framebuffer = Framebuffer.Surface s →
      w.setCurrentErr context.cgl_context = Cgl.kCGLNoError →
      (Cgl.unbind_surface_from_context w context).1 = Except.ok (some s) ∧
      (Cgl.unbind_surface_from_context w context).2.1 =
        { context with framebuffer := Framebuffer.None } ∧
      (Cgl.unbind_surface_from_context w context).2.2.events =
        w.events ++ [Cgl.CGLEvent.SetCurrentContext context.cgl_context,
          Cgl.CGLEvent.Flush, Cgl.CGLEvent.SetCurrentContext w.current]) := by
  refine ⟨?_, ?_, ?_⟩
  · intro hf
    simp [Cgl.unbind_surface_from_context, hf]
  · intro hf
    simp [Cgl.unbind_surface_from_context, hf]
  · intro s hf herr
    simp [Cgl.unbind_surface_from_context, hf,
      Cgl.temporarily_make_context_current, Cgl.make_context_current,
      Cgl.cglSetCurrentContext, herr, Cgl.kCGLNoError]
    split <;> simp

/-- C3 witness: unbinding the sample bound context under an accepting native
layer hands back the bound surface and leaves the context unbound. -/
theorem C3_unbind_surface_from_context_witness :
    (Cgl.unbind_surface_from_context sampleWorld cglCtxBound).1 =
      Except.ok (some sampleCglSurface) ∧
    (Cgl.unbind_surface_from_context sampleWorld cglCtxNone).1 = Except.ok none := by
  have hb := (C3_unbind_surface_from_context sampleWorld cglCtxBound).2.2
    sampleCglSurface rfl rfl
  have hn := (C3_unbind_surface_from_context sampleWorld cglCtxNone).1 rfl
  exact ⟨hb.1, by rw [hn]⟩

/-- C4: `destroy_context` is a no-op returning Ok when the native handle is
already null; otherwise it empties the binding slot (destroying a bound surface),
clears the thread's current-context binding, destroys the native context, zeroes
the handle, and afterwards dropping the context does not fault. -/
theorem C4_destroy_context_teardown (w : Cgl.CGLWorld) (context : Cgl.Context) :
    (context.cgl_context = 0 →
      Cgl.destroy_context w context = (Except.ok (), context, w)) ∧
    (context.cgl_context ≠ 0 →
      ((context.framebuffer = Framebuffer.None ∨
          context.framebuffer = Framebuffer.External) →
        (Cgl.destroy_context w context).1 = Except.ok () ∧
        (Cgl.destroy_context w context).2.1 =
          { context with cgl_context := 0, framebuffer := Framebuffer.None } ∧
        (Cgl.destroy_context w context).2.2.events =
          w.events ++ [Cgl.CGLEvent.SetCurrentContext 0,
            Cgl.CGLEvent.DestroyContext context.cgl_context]) ∧
      (∀ s, context.framebuffer = Framebuffer.Surface s →
        s.context_id = context.id →
        (Cgl.destroy_context w context).1 = Except.ok () ∧
        (Cgl.destroy_context w context).2.1 =
          { context with cgl_context := 0, framebuffer := Framebuffer.None } ∧
        (Cgl.destroy_context w context).2.2.events =
          w.events ++ [Cgl.CGLEvent.ReleaseSurface s.handle,
            Cgl.CGLEvent.SetCurrentContext 0,
            Cgl.CGLEvent.DestroyContext context.cgl_context]) ∧
      ((Cgl.destroy_context w context).1 = Except.ok () →
        Cgl.Context.dropPanics (Cgl.destroy_context w context).2.1 = false) ∧
      (w.setCurrentErr 0 = Cgl.kCGLNoError →
        (Cgl.destroy_context w context).1 = Except.ok () →
        (Cgl.destroy_context w context).2.2.current = 0)) := by
  refine ⟨?_, ?_⟩
  · intro h0
    simp [Cgl.destroy_context, h0]
  · intro hnz
    cases hf : context.framebuffer with
    | None =>
        refine ⟨?_, ?_, ?_, ?_⟩
        · intro _
          simp [Cgl.destroy_context, hnz, hf, Cgl.cglSetCurrentContext]
          split <;> simp
        · intro s hs
          simp [hf] at hs
        · intro _
          simp [Cgl.destroy_context, hnz, hf, Cgl.Context.dropPanics,
            Cgl.cglSetCurrentContext]
        · intro herr _
          simp [Cgl.destroy_context, hnz, hf, Cgl.cglSetCurrentContext, herr]
    | External =>
        refine ⟨?_, ?_, ?_, ?_⟩
        · intro _
          simp [Cgl.destroy_context, hnz, hf, Cgl.cglSetCurrentContext]
          split <;> simp
        · intro s hs
          simp [hf] at hs
        · intro _
          simp [Cgl.destroy_context, hnz, hf, Cgl.Context.dropPanics,
            Cgl.cglSetCurrentContext]
        · intro herr _
          simp [Cgl.destroy_context, hnz, hf, Cgl.cglSetCurrentContext, herr]
    | Surface s0 =>
        by_cases hid : s0.context_id = context.id
        · have hid2 : context.id = s0.context_id := hid.symm
          refine ⟨?_, ?_, ?_, ?_⟩
          · intro hor
            rcases hor with hor | hor <;> simp at hor
          · intro s hs hsid
            injection hs with hs
            subst hs
            simp [Cgl.destroy_context, hnz, hf, Cgl.destroy_surface, hid2,
              Cgl.cglSetCurrentContext]
            split <;> simp
          · intro _
            simp [Cgl.destroy_context, hnz, hf, Cgl.destroy_surface, hid2,
              Cgl.Context.dropPanics, Cgl.cglSetCurrentContext]
          · intro herr _
            simp [Cgl.destroy_context, hnz, hf, Cgl.destroy_surface, hid2,
              Cgl.cglSetCurrentContext, herr]
        · have hid2 : context.id ≠ s0.context_id := fun e => hid e.symm
          refine ⟨?_, ?_, ?_, ?_⟩
          · intro hor
            rcases hor with hor | hor <;> simp at hor
          · intro s hs hsid
            injection hs with hs
            subst hs
            exact absurd hsid hid
          · intro hok
            simp [Cgl.destroy_context, hnz, hf, Cgl.destroy_surface, hid2] at hok
          · intro _ hok
            simp [Cgl.destroy_context, hnz, hf, Cgl.destroy_surface, hid2] at hok

/-- C4 witness: destroying a context with a null handle is a no-op, and
destroying the sample bound context succeeds, zeroes the handle, and makes the
subsequent drop safe. -/
theorem C4_destroy_context_teardown_witness :
    Cgl.destroy_context sampleWorld ⟨0, 7, Framebuffer.None⟩ =
      (Except.ok (), ⟨0, 7, Framebuffer.None⟩, sampleWorld) ∧
    (Cgl.destroy_context sampleWorld cglCtxBound).1 = Except.ok () ∧
    (Cgl.destroy_context sampleWorld cglCtxBound).2.1.cgl_context = 0 ∧
    Cgl.Context.dropPanics (Cgl.destroy_context sampleWorld cglCtxBound).2.1 =
      false := by
  have h0 := (C4_destroy_context_teardown sampleWorld
    ⟨0, 7, Framebuffer.None⟩).1 rfl
  have hb := (C4_destroy_context_teardown sampleWorld cglCtxBound).2
    (by decide)
  have hs := hb.2.1 sampleCglSurface rfl rfl
  exact ⟨h0, hs.1, by rw [hs.2.1], hb.2.2.1 hs.1⟩

/-- Helper: over any sequence of `create_context` calls, the guarded counter
never decreases, every produced context's ID lies between the starting and final
counter values, every produced context starts unbound, and the produced IDs are
strictly increasing in creation order. -/
theorem run_creations_spec (rs : List (Except Nat Nat))
    (st : Cgl.CreateContextState) :
    st.next_context_id ≤ (Cgl.run_creations st rs).2.next_context_id ∧
    (∀ c ∈ (Cgl.run_creations st rs).1,
      st.next_context_id ≤ c.id ∧
        c.id < (Cgl.run_creations st rs).2.next_context_id ∧
        c.framebuffer = Framebuffer.None) ∧
    ((Cgl.run_creations st rs).1.map Cgl.Context.id).Pairwise (· < ·) := by
  induction rs generalizing st with
  | nil => simp [Cgl.run_creations]
  | cons r rs ih =>
      cases r with
      | error e =>
          simpa [Cgl.run_creations, Cgl.create_context] using ih st
      | ok hdl =>
          obtain ⟨h1, h2, h3⟩ := ih ⟨st.next_context_id + 1⟩
          simp only [Cgl.run_creations, Cgl.create_context] at h1 h2 h3 ⊢
          refine ⟨le_trans (Nat.le_succ _) h1, ?_, ?_⟩
          · intro c hc
            rcases List.mem_cons.mp hc with rfl | hc
            · exact ⟨le_refl _, lt_of_lt_of_le (Nat.lt_succ_self _) h1, rfl⟩
            · obtain ⟨ha, hb, hcfb⟩ := h2 c hc
              exact ⟨le_trans (Nat.le_succ _) ha, hb, hcfb⟩
          · rw [List.map_cons, List.pairwise_cons]
            refine ⟨?_, h3⟩
            intro b hb
            rcases List.mem_map.mp hb with ⟨c, hc, rfl⟩
            exact lt_of_lt_of_le (Nat.lt_succ_self _) (h2 c hc).1

/-- C6: `create_context` hands the new context the guarded counter's value and
increments the counter before the lock is released (a native failure leaves the
counter untouched); hence across any creation sequence the successfully created
contexts carry strictly increasing IDs, and each starts unbound. -/
theorem C6_create_context_monotone_ids (st : Cgl.CreateContextState)
    (rs : List (Except Nat Nat)) :
    (∀ hdl, Cgl.create_context st (Except.ok hdl) =
      (Except.ok ⟨hdl, st.next_context_id, Framebuffer.None⟩,
       ⟨st.next_context_id + 1⟩)) ∧
    (∀ e, Cgl.create_context st (Except.error e) =
      (Except.error (Error.ContextCreationFailed e), st)) ∧
    ((Cgl.run_creations st rs).1.map Cgl.Context.id).Pairwise (· < ·) ∧
    (∀ c ∈ (Cgl.run_creations st rs).1, c.framebuffer = Framebuffer.None) :=
  ⟨fun _ => rfl, fun _ => rfl, (run_creations_spec rs st).2.2,
    fun c hc => ((run_creations_spec rs st).2.1 c hc).2.2⟩

/-- A sample creation sequence: two native successes around a native failure. -/
def sampleCreates : List (Except Nat Nat) :=
  [Except.ok 101, Except.error 3, Except.ok 102]

/-- C6 witness: running the sample creation sequence from counter 10 yields
strictly increasing IDs, and a single successful creation consumes counter
value 10 and bumps the counter to 11. -/
theorem C6_create_context_monotone_ids_witness :
    ((Cgl.run_creations ⟨10⟩ sampleCreates).1.map Cgl.Context.id).Pairwise
      (· < ·) ∧
    Cgl.create_context ⟨10⟩ (Except.ok 101) =
      (Except.ok ⟨101, 10, Framebuffer.None⟩, ⟨11⟩) := by
  have h := C6_create_context_monotone_ids ⟨10⟩ sampleCreates
  exact ⟨h.2.2.1, h.1 101⟩

/-- The attribute set used to refute C9: no flags, requested GL version 3.0. -/
def attrs30 : ContextAttributes := ⟨⟨false, false, false⟩, ⟨3, 0⟩⟩

/-- A CGL device on a non-low-power adapter. -/
def dev0 : Cgl.Device := ⟨false⟩

/-- The descriptor `create_context_descriptor` produces for `attrs30`. -/
def desc30 : Cgl.ContextDescriptor := ⟨0, 0, 0, 0x3200, false⟩

/-- C9 counterexample: requesting GL version 3.0 produces the 3.2-core profile
descriptor, and reading the attributes back decodes version 3.2, not 3.0 — so
`context_descriptor_attributes` is not the inverse of
`create_context_descriptor` on every accepted attribute set. -/
theorem C9_roundtrip_counterexample :
    Cgl.create_context_descriptor dev0 attrs30 0 1 = Except.ok desc30 ∧
    Cgl.context_descriptor_attributes desc30 ≠ attrs30 ∧
    (Cgl.context_descriptor_attributes desc30).version = ⟨3, 2⟩ ∧
    attrs30.version = ⟨3, 0⟩ :=
  ⟨rfl, by decide, by decide, rfl⟩

/-- Helper: decoding the 4.1-core profile constant. -/
theorem decode_GL4_major : (Cgl.kCGLOGLPVersion_GL4_Core >>> 12) &&& 0xf = 4 := by
  decide

/-- Helper: decoding the 4.1-core profile constant, minor part. -/
theorem decode_GL4_minor : (Cgl.kCGLOGLPVersion_GL4_Core >>> 8) &&& 0xf = 1 := by
  decide

/-- Helper: decoding the 3.2-core profile constant. -/
theorem decode_32_major : (Cgl.kCGLOGLPVersion_3_2_Core >>> 12) &&& 0xf = 3 := by
  decide

/-- Helper: decoding the 3.2-core profile constant, minor part. -/
theorem decode_32_minor : (Cgl.kCGLOGLPVersion_3_2_Core >>> 8) &&& 0xf = 2 := by
  decide

/-- Helper: decoding the legacy profile constant. -/
theorem decode_legacy_major : (Cgl.kCGLOGLPVersion_Legacy >>> 12) &&& 0xf = 1 := by
  decide

/-- Helper: decoding the legacy profile constant, minor part. -/
theorem decode_legacy_minor : (Cgl.kCGLOGLPVersion_Legacy >>> 8) &&& 0xf = 0 := by
  decide

/-- C9 (amended): for every attribute set accepted by
`create_context_descriptor`, reading the descriptor back reconstructs the
ALPHA/DEPTH/STENCIL flags exactly, while the decoded GL version is the canonical
version of the selected profile tier — 4.1 when the requested major is at least
4, 3.2 when it is 3, and 1.0 otherwise — so the version round-trips exactly when
the requested version is one of those three tier versions. -/
theorem C9_roundtrip_amended (device : Cgl.Device) (fa fd fs : Bool)
    (mj mn : Nat) (choose_err pixel_format_count : Nat)
    (d : Cgl.ContextDescriptor)
    (h : Cgl.create_context_descriptor device ⟨⟨fa, fd, fs⟩, ⟨mj, mn⟩⟩
      choose_err pixel_format_count = Except.ok d) :
    Cgl.context_descriptor_attributes d =
      ⟨⟨fa, fd, fs⟩,
        if 4 ≤ mj then ⟨4, 1⟩ else if mj = 3 then ⟨3, 2⟩ else ⟨1, 0⟩⟩ ∧
    ((Cgl.context_descriptor_attributes d).version = ⟨mj, mn⟩ ↔
      ((mj, mn) = (4, 1) ∨ (mj, mn) = (3, 2) ∨ (mj, mn) = (1, 0))) := by
  simp only [Cgl.create_context_descriptor] at h
  by_cases hce : choose_err ≠ Cgl.kCGLNoError
  · rw [if_pos hce] at h
    exact absurd h (by simp)
  rw [if_neg hce] at h
  by_cases hcnt : pixel_format_count = 0
  · rw [if_pos hcnt] at h
    exact absurd h (by simp)
  rw [if_neg hcnt] at h
  injection h with h
  subst h
  by_cases h4 : 4 ≤ mj
  · refine ⟨?_, ?_⟩
    · cases fa <;> cases fd <;> cases fs <;>
        simp [Cgl.context_descriptor_attributes, h4, decode_GL4_major,
          decode_GL4_minor]
    · simp [Cgl.context_descriptor_attributes, h4, decode_GL4_major,
        decode_GL4_minor, GLVersion.mk.injEq, Prod.mk.injEq]
      omega
  · by_cases h3 : mj = 3
    · refine ⟨?_, ?_⟩
      · cases fa <;> cases fd <;> cases fs <;>
          simp [Cgl.context_descriptor_attributes, h4, h3, decode_32_major,
            decode_32_minor]
      · simp [Cgl.context_descriptor_attributes, h4, h3, decode_32_major,
          decode_32_minor, GLVersion.mk.injEq, Prod.mk.injEq]
        omega
    · refine ⟨?_, ?_⟩
      · cases fa <;> cases fd <;> cases fs <;>
          simp [Cgl.context_descriptor_attributes, h4, h3,
            decode_legacy_major, decode_legacy_minor]
      · simp [Cgl.context_descriptor_attributes, h4, h3, decode_legacy_major,
          decode_legacy_minor, GLVersion.mk.injEq, Prod.mk.injEq]
        omega

/-- The attribute set used to witness the amended C9 round-trip. -/
def attrs41 : ContextAttributes := ⟨⟨true, false, true⟩, ⟨4, 1⟩⟩

/-- The descriptor `create_context_descriptor` produces for `attrs41`. -/
def desc41 : Cgl.ContextDescriptor := ⟨8, 0, 8, 0x4100, false⟩

/-- C9 (amended) witness: the 4.1 request round-trips exactly. -/
theorem C9_roundtrip_amended_witness :
    Cgl.context_descriptor_attributes desc41 = attrs41 := by
  have h := C9_roundtrip_amended dev0 true false true 4 1 0 1 desc41 rfl
  exact h.1.trans rfl
